import Mathlib

/-!
# The Discord notifier of statping (`notifiers/discord.go`)

A shallow embedding of the Go file: the package-level variable `Discorder`,
the methods of `*discord`, and the three collaborators the file calls but does
not define (`utils.HttpRequest`, `ReplaceVars`, `json.Unmarshal`).

Conventions of the embedding.

* Go `string` and `[]byte` are both Lean `String`; the conversions
  `string(contents)`, `[]byte(message)`, `strings.NewReader(msg)` and
  `bytes.NewBuffer(..)` keep the bytes as they are and so are the identity.
* A Go `error` is `Option GoError`, `none` being `nil`.
* `time.Duration` is an `Int` count of nanoseconds.
* Outbound HTTP is an effect: every method that may send takes the program
  state and returns the new one, whose `requests` field lists the requests
  handed to `utils.HttpRequest` so far, oldest first.
-/

namespace notifiers

/-! ## Go values used by the file -/

/-- Go `error` value, identified by the text its `Error()` method yields. -/
structure GoError where
  text : String
deriving DecidableEq, Repr

/-- Go `errors.New`. -/
def errors.New (text : String) : GoError := ⟨text⟩

/-- Go method `Error()` of an error value. -/
def GoError.Error (e : GoError) : String := e.text

/-- Go `time.Duration`, in nanoseconds. -/
abbrev Duration := Int

/-- Go `time.Second`. -/
def time.Second : Duration := 1000000000

/-- Go `null.NullString` (a `database/sql` null string): the text and whether it is set. -/
structure NullString where
  String : String
  Valid : Bool
deriving DecidableEq, Repr

/-- Go `null.NewNullString`: a set null string holding `s`. -/
def null.NewNullString (s : String) : NullString := ⟨s, true⟩

/-- Go `notifications.NotificationForm`, with the fields the file assigns; `Type'` is the Go field `Type`. -/
structure NotificationForm where
  Type' : String
  Title : String
  Placeholder : String
  DbField : String
deriving DecidableEq, Repr

/-- Go `notifications.Notification`, with the fields the file assigns or reads.
`Host` is not assigned by the literal of `Discorder` and so starts at its zero value. -/
structure Notification where
  Method : String
  Title : String
  Description : String
  Author : String
  AuthorUrl : String
  Delay : Duration
  Icon : String
  SuccessData : NullString
  FailureData : NullString
  DataType : String
  Limits : Int
  Form : List NotificationForm
  Host : NullString
deriving DecidableEq, Repr

/-- Modelled from the spec: the declaration of `services.Service` is outside the file; these are
the components of the "Service Snapshot" of the data model (name, domain, last online and offline
time stamps, failure count of the last 24 hours). -/
structure Service where
  Name : String
  Domain : String
  LastOnline : Int
  LastOffline : Int
  FailuresLast24Hours : Int
deriving DecidableEq, Repr

/-- Modelled from the spec: the declaration of `failures.Failure` is outside the file; these are
the components of the "Failure Record" of the data model (issue description, ping measurement,
time since the downtime began). -/
structure Failure where
  Issue : String
  PingTime : Int
  DowntimeAgo : Int
deriving DecidableEq, Repr

/-- Go composite literal `failures.Failure{}`: every field at its zero value. -/
def Failure.zero : Failure := ⟨"", 0, 0⟩

/-- Go `type discordTestJson struct { Code int; Message string }`. -/
structure discordTestJson where
  Code : Int
  Message : String
deriving DecidableEq, Repr

/-- Go `var dtt discordTestJson`: the zero value. -/
def discordTestJson.zero : discordTestJson := ⟨0, ""⟩

/-- Go `type discord struct { *notifications.Notification }`. -/
structure discord where
  Notification : Notification
deriving DecidableEq, Repr

/-! ## Collaborators -/

/-- The arguments of one call of `utils.HttpRequest`, in the order of the call:
end point, method, content type, headers (`nil` is `[]`), the bytes of the body reader,
time out, whether TLS certificates are verified, custom TLS configuration (`nil` is `none`). -/
structure HttpCall where
  url : String
  method : String
  contentType : String
  headers : List String
  body : String
  timeout : Duration
  verifySSL : Bool
  customTLS : Option String
deriving DecidableEq, Repr

/-- What one call of `utils.HttpRequest` returns: the bytes read, the status code of the
`*http.Response` when there is one, and the error. -/
structure HttpResult where
  contents : String
  resp : Option Int
  err : Option GoError
deriving DecidableEq, Repr

/-- The functions the file calls and does not define. `transport` answers a request given the
requests sent before it; `ReplaceVars` is the template renderer of the package;
`Unmarshal contents v` is `json.Unmarshal(contents, &v)`: the value of `v` afterwards and the
error. -/
structure Collaborators where
  transport : List HttpCall → HttpCall → HttpResult
  ReplaceVars : String → Service → Failure → String
  Unmarshal : String → discordTestJson → discordTestJson × Option GoError

/-- The state the methods run in: the current value of the package-level variable `Discorder`
and the requests sent so far. -/
structure State where
  Discorder : discord
  requests : List HttpCall

/-- Modelled from the spec: `utils.HttpRequest` is defined outside the file. It performs one
HTTP request with the given arguments and returns what the transport answers. -/
def utils.HttpRequest (env : Collaborators) (endpoint method contentType : String)
    (headers : List String) (body : String) (timeout : Duration) (verifySSL : Bool)
    (customTLS : Option String) (st : State) : HttpResult × State :=
  let call : HttpCall := ⟨endpoint, method, contentType, headers, body, timeout, verifySSL, customTLS⟩
  (env.transport st.requests call, ⟨st.Discorder, st.requests ++ [call]⟩)

/-! ## The file -/

/-- Go `var Discorder = &discord{&notifications.Notification{...}}`: the initial value. -/
def Discorder : discord := ⟨{
  Method := "discord"
  Title := "Discord"
  Description := "Send notifications to your discord channel using discord webhooks. Insert your discord channel Webhook URL to receive notifications. Based on the <a href=\"https://discordapp.com/developers/docs/resources/Webhook\">discord webhooker API</a>."
  Author := "Hunter Long"
  AuthorUrl := "https://github.com/hunterlong"
  Delay := 5 * time.Second
  Icon := "fab fa-discord"
  SuccessData := null.NewNullString (
  "\x7b\n" ++
  "  \"embeds\": [\n" ++
  "    \x7b\n" ++
  "      \"title\": \"\x7b\x7b.Service.Name\x7d\x7d is back up\",\n" ++
  "      \"description\": \"Your service [\x27\x7b\x7b.Service.Name\x7d\x7d\x27](\x7b\x7b.Service.Domain\x7d\x7d) is currently back online and was down for \x7b\x7b.Service.Downtime.Human\x7d\x7d.\",\n" ++
  "      \"url\": \"\x7b\x7b.Service.Domain\x7d\x7d\",\n" ++
  "      \"color\": 8311585,\n" ++
  "      \"footer\": \x7b\n" ++
  "        \"icon_url\": \"https://avatars1.githubusercontent.com/u/61949049?s=200&v=4\",\n" ++
  "        \"text\": \"Statping Version \x7b\x7b.Core.Version\x7d\x7d\"\n" ++
  "      \x7d,\n" ++
  "      \"author\": \x7b\n" ++
  "      \"name\": \"\x7b\x7b.Core.Name\x7d\x7d\",\n" ++
  "      \"url\": \"\x7b\x7b.Core.Domain\x7d\x7d\",\n" ++
  "      \"icon_url\": \"https://avatars1.githubusercontent.com/u/61949049?s=200&v=4\"\n" ++
  "    \x7d,\n" ++
  "      \"thumbnail\": \x7b\n" ++
  "        \"url\": \"https://avatars1.githubusercontent.com/u/61949049?s=200&v=4\"\n" ++
  "      \x7d,\n" ++
  "      \"fields\": [\n" ++
  "        \x7b\n" ++
  "          \"name\": \"Last Online\",\n" ++
  "          \"value\": \"\x7b\x7b.Service.LastOnline\x7d\x7d\",\n" ++
  "          \"inline\": true\n" ++
  "        \x7d,\n" ++
  "        \x7b\n" ++
  "          \"name\": \"Last Offline\",\n" ++
  "          \"value\": \"\x7b\x7b.Service.LastOffline\x7d\x7d\",\n" ++
  "          \"inline\": true\n" ++
  "        \x7d,\n" ++
  "        \x7b\n" ++
  "          \"name\": \"Failures 24 Hours\",\n" ++
  "          \"value\": \"\x7b\x7b.Service.FailuresLast24Hours\x7d\x7d\",\n" ++
  "          \"inline\": true\n" ++
  "        \x7d\n" ++
  "      ]\n" ++
  "    \x7d\n" ++
  "  ]\n" ++
  "\x7d")
  FailureData := null.NewNullString (
  "\x7b\n" ++
  "  \"embeds\": [\n" ++
  "    \x7b\n" ++
  "      \"title\": \"Your service \x27\x7b\x7b.Service.Name\x7d\x7d\x27 is failing\",\n" ++
  "      \"description\": \"Your service [\x27\x7b\x7b.Service.Name\x7d\x7d\x27](\x7b\x7b.Service.Domain\x7d\x7d) is currently offline for \x7b\x7b.Service.Downtime.Human\x7d\x7d!\",\n" ++
  "      \"url\": \"\x7b\x7b.Service.Domain\x7d\x7d\",\n" ++
  "      \"color\": 13632027,\n" ++
  "      \"footer\": \x7b\n" ++
  "        \"icon_url\": \"https://avatars1.githubusercontent.com/u/61949049?s=200&v=4\",\n" ++
  "        \"text\": \"Statping Version \x7b\x7b.Core.Version\x7d\x7d\"\n" ++
  "      \x7d,\n" ++
  "      \"author\": \x7b\n" ++
  "      \"name\": \"\x7b\x7b.Core.Name\x7d\x7d\",\n" ++
  "      \"url\": \"\x7b\x7b.Core.Domain\x7d\x7d\",\n" ++
  "      \"icon_url\": \"https://avatars1.githubusercontent.com/u/61949049?s=200&v=4\"\n" ++
  "    \x7d,\n" ++
  "      \"thumbnail\": \x7b\n" ++
  "        \"url\": \"https://avatars1.githubusercontent.com/u/61949049?s=200&v=4\"\n" ++
  "      \x7d,\n" ++
  "      \"fields\": [\n" ++
  "        \x7b\n" ++
  "          \"name\": \"Downtime Start\",\n" ++
  "          \"value\": \"\x7b\x7b.Failure.DowntimeAgo\x7d\x7d\"\n" ++
  "        \x7d,\n" ++
  "        \x7b\n" ++
  "          \"name\": \"Reason\",\n" ++
  "          \"value\": \"\x7b\x7b.Failure.Issue\x7d\x7d\",\n" ++
  "          \"inline\": true\n" ++
  "        \x7d,\n" ++
  "        \x7b\n" ++
  "          \"name\": \"Ping\",\n" ++
  "          \"value\": \"\x7b\x7b.Failure.PingTime\x7d\x7d\",\n" ++
  "          \"inline\": true\n" ++
  "        \x7d,\n" ++
  "        \x7b\n" ++
  "          \"name\": \"Failures 24 Hours\",\n" ++
  "          \"value\": \"\x7b\x7b.Service.FailuresLast24Hours\x7d\x7d\",\n" ++
  "          \"inline\": true\n" ++
  "        \x7d\n" ++
  "      ]\n" ++
  "    \x7d\n" ++
  "  ]\n" ++
  "\x7d")
  DataType := "json"
  Limits := 60
  Form := [⟨"text", "discord webhooker URL", "https://discordapp.com/api/webhooks/****/*****", "host"⟩]
  Host := ⟨"", false⟩ }⟩

/-- Go `func (d *discord) sendRequest(msg string) (string, error)`. -/
def discord.sendRequest (env : Collaborators) (d : discord) (msg : String) (st : State) :
    (String × Option GoError) × State :=
  let r := utils.HttpRequest env d.Notification.Host.String "POST" "application/json" [] msg
    (10 * time.Second) true none st
  ((r.1.contents, r.1.err), r.2)

/-- Go `func (d *discord) Select() *notifications.Notification`. -/
def discord.Select (d : discord) : notifiers.Notification :=
  d.Notification

/-- Go `func (d *discord) Valid(values notifications.Values) error`. -/
def discord.Valid {Values : Type} (_d : discord) (_values : Values) : Option GoError :=
  none

/-- Go `func (d *discord) OnFailure(s services.Service, f failures.Failure) (string, error)`. -/
def discord.OnFailure (env : Collaborators) (d : discord) (s : Service) (f : Failure) (st : State) :
    (String × Option GoError) × State :=
  discord.sendRequest env d (env.ReplaceVars d.Notification.FailureData.String s f) st

/-- Go `func (d *discord) OnSuccess(s services.Service) (string, error)`. -/
def discord.OnSuccess (env : Collaborators) (d : discord) (s : Service) (st : State) :
    (String × Option GoError) × State :=
  discord.sendRequest env d (env.ReplaceVars d.Notification.SuccessData.String s Failure.zero) st

/-- Go `func (d *discord) OnTest() (string, error)`. The end point is read from the
package-level `Discorder`, the receiver is not consulted. -/
def discord.OnTest (env : Collaborators) (_d : discord) (st : State) :
    (String × Option GoError) × State :=
  let outError := errors.New "incorrect discord URL, please confirm URL is correct"
  let message := "\x7b\"content\": \"Testing the discord notifier\"\x7d"
  let r := utils.HttpRequest env st.Discorder.Notification.Host.String "POST" "application/json" []
    message (10 * time.Second) true none st
  let contents := r.1.contents
  let err := r.1.err
  if contents = "" then
    (("", none), r.2)
  else
    match err with
    | some e => (("", some e), r.2)
    | none =>
      let dec := env.Unmarshal contents discordTestJson.zero
      match dec.2 with
      | some _ => ((contents, some outError), r.2)
      | none =>
        if dec.1.Code = 0 then
          ((contents, some outError), r.2)
        else
          ((contents, none), r.2)

/-- Go `func (d *discord) OnSave() (string, error)`. -/
def discord.OnSave (_d : discord) : String × Option GoError :=
  ("", none)

/-! ## Vocabulary of the statements -/

/-- The request `discord.OnTest` hands to `utils.HttpRequest` when run in state `st`. -/
def discord.OnTest_request (st : State) : HttpCall :=
  ⟨st.Discorder.Notification.Host.String, "POST", "application/json", [],
    "\x7b\"content\": \"Testing the discord notifier\"\x7d", 10 * time.Second, true, none⟩

/-- The state at process start: `Discorder` as declared, nothing sent yet. -/
def initialState : State := ⟨Discorder, []⟩

/-! ## Stub collaborators for the concrete scenarios -/

/-- A stub renderer: the template followed by the service name and the issue. -/
def stubReplaceVars (input : String) (s : Service) (f : Failure) : String :=
  input ++ "|" ++ s.Name ++ "|" ++ f.Issue

/-- A stub decoder answering as `json.Unmarshal` does on the bodies of the test scenarios:
code and message set, message only (the code keeps its previous value), and anything else
rejected as not being JSON. -/
def stubUnmarshal (contents : String) (v : discordTestJson) : discordTestJson × Option GoError :=
  if contents = "\x7b\"code\":1,\"message\":\"ok\"\x7d" then (⟨1, "ok"⟩, none)
  else if contents = "\x7b\"message\":\"bad\"\x7d" then (⟨v.Code, "bad"⟩, none)
  else (v, some (errors.New "invalid character looking for beginning of value"))

/-- Stub collaborators whose HTTP layer answers every request with `r`. -/
def stubEnv (r : HttpResult) : Collaborators :=
  ⟨fun _ _ => r, stubReplaceVars, stubUnmarshal⟩

/-- An adapter instance of its own, configured with its own webhook URL. -/
def ownAdapter : discord :=
  ⟨{ Discorder.Notification with Host := null.NewNullString "https://discordapp.com/api/webhooks/2/own" }⟩

/-- A state in which the package-level `Discorder` is configured with another webhook URL. -/
def configuredState : State :=
  ⟨⟨{ Discorder.Notification with Host := null.NewNullString "https://discordapp.com/api/webhooks/1/global" }⟩, []⟩

/-! ## Shared lemmas -/

/-- Whatever the answer, `OnTest` sends exactly its one request and leaves `Discorder` alone. -/
theorem OnTest_state (env : Collaborators) (d : discord) (st : State) :
    (discord.OnTest env d st).2 = ⟨st.Discorder, st.requests ++ [discord.OnTest_request st]⟩ := by
  unfold discord.OnTest utils.HttpRequest discord.OnTest_request
  simp only []
  split
  · rfl
  · split
    · rfl
    · split
      · rfl
      · split <;> rfl

/-- What `OnTest` returns, as a function of the answer to its request. -/
theorem OnTest_result (env : Collaborators) (d : discord) (st : State) :
    (discord.OnTest env d st).1 =
      if (env.transport st.requests (discord.OnTest_request st)).contents = "" then ("", none)
      else
        match (env.transport st.requests (discord.OnTest_request st)).err with
        | some e => ("", some e)
        | none =>
          match (env.Unmarshal (env.transport st.requests (discord.OnTest_request st)).contents
              discordTestJson.zero).2 with
          | some _ =>
            ((env.transport st.requests (discord.OnTest_request st)).contents,
              some (errors.New "incorrect discord URL, please confirm URL is correct"))
          | none =>
            if (env.Unmarshal (env.transport st.requests (discord.OnTest_request st)).contents
                discordTestJson.zero).1.Code = 0 then
              ((env.transport st.requests (discord.OnTest_request st)).contents,
                some (errors.New "incorrect discord URL, please confirm URL is correct"))
            else ((env.transport st.requests (discord.OnTest_request st)).contents, none) := by
  unfold discord.OnTest utils.HttpRequest discord.OnTest_request
  simp only []
  split
  · rfl
  · split
    · rfl
    · split
      · rfl
      · split <;> rfl

/-! ## `OnTest`: interpretation of the response -/

/-- C1, as stated, fails: the HTTP layer answers with a transport error and no bytes, and
`OnTest` returns the empty string with no error instead of that transport error. -/
theorem OnTest_transport_error_empty_body_masked :
    ((stubEnv ⟨"", none, some (errors.New "dial tcp: i/o timeout")⟩).transport
        initialState.requests (discord.OnTest_request initialState)).err
      = some (errors.New "dial tcp: i/o timeout") ∧
    (discord.OnTest (stubEnv ⟨"", none, some (errors.New "dial tcp: i/o timeout")⟩)
        Discorder initialState).1 = ("", none) ∧
    (discord.OnTest (stubEnv ⟨"", none, some (errors.New "dial tcp: i/o timeout")⟩)
        Discorder initialState).1 ≠ ("", some (errors.New "dial tcp: i/o timeout")) := by
  refine ⟨rfl, ?_, ?_⟩
  · rw [OnTest_result]; rfl
  · rw [OnTest_result]; decide

/-- C1, amended: when the HTTP call returned a transport error together with a non-empty body,
`OnTest` returns the empty string and that same transport error. -/
theorem OnTest_transport_error (env : Collaborators) (d : discord) (st : State) (e : GoError)
    (herr : (env.transport st.requests (discord.OnTest_request st)).err = some e)
    (hbody : (env.transport st.requests (discord.OnTest_request st)).contents ≠ "") :
    (discord.OnTest env d st).1 = ("", some e) := by
  rw [OnTest_result, if_neg hbody, herr]

/-- C1, amended, at a concrete input: a body cut short by an unexpected end of stream. -/
theorem OnTest_transport_error_witness :
    (discord.OnTest (stubEnv ⟨"\x7b\"code\": 5", some 200, some (errors.New "unexpected EOF")⟩)
        Discorder initialState).1 = ("", some (errors.New "unexpected EOF")) :=
  OnTest_transport_error _ _ _ _ rfl (by decide)

/-- C2: when the response body is empty, `OnTest` returns the empty string and no error,
whatever response and error the HTTP call returned with it. -/
theorem OnTest_empty_body (env : Collaborators) (d : discord) (st : State)
    (hbody : (env.transport st.requests (discord.OnTest_request st)).contents = "") :
    (discord.OnTest env d st).1 = ("", none) := by
  rw [OnTest_result, if_pos hbody]

/-- C2 at a concrete input: an empty 204 answer. -/
theorem OnTest_empty_body_witness :
    (discord.OnTest (stubEnv ⟨"", some 204, none⟩) Discorder initialState).1 = ("", none) :=
  OnTest_empty_body _ _ _ rfl

/-- C3: for a non-empty body received with no transport error, when the body fails to decode,
or decodes with code 0, or decodes leaving the code at the zero value it started with (field
absent), `OnTest` returns the body unchanged together with one and the same fixed error. -/
theorem OnTest_decode_failure_or_zero_code (env : Collaborators) (d : discord) (st : State)
    (hbody : (env.transport st.requests (discord.OnTest_request st)).contents ≠ "")
    (herr : (env.transport st.requests (discord.OnTest_request st)).err = none)
    (hdec :
      (env.Unmarshal (env.transport st.requests (discord.OnTest_request st)).contents
          discordTestJson.zero).2 ≠ none ∨
      (env.Unmarshal (env.transport st.requests (discord.OnTest_request st)).contents
          discordTestJson.zero).1.Code = 0 ∨
      (env.Unmarshal (env.transport st.requests (discord.OnTest_request st)).contents
          discordTestJson.zero).1.Code = discordTestJson.zero.Code) :
    (discord.OnTest env d st).1 =
      ((env.transport st.requests (discord.OnTest_request st)).contents,
        some (errors.New "incorrect discord URL, please confirm URL is correct")) ∧
    (discord.OnTest env d st).1.2 ≠ none := by
  have hres : (discord.OnTest env d st).1 =
      ((env.transport st.requests (discord.OnTest_request st)).contents,
        some (errors.New "incorrect discord URL, please confirm URL is correct")) := by
    rw [OnTest_result, if_neg hbody, herr]
    simp only []
    split
    · rfl
    · rename_i hnone
      rcases hdec with h | h | h
      · exact absurd hnone h
      · rw [if_pos h]
      · have h0 : (env.Unmarshal (env.transport st.requests (discord.OnTest_request st)).contents
            discordTestJson.zero).1.Code = 0 := h
        rw [if_pos h0]
  refine ⟨hres, ?_⟩
  rw [hres]
  exact Option.some_ne_none _

/-- C3 at a concrete input: the body carries a message and no code. -/
theorem OnTest_decode_failure_or_zero_code_witness :
    (discord.OnTest (stubEnv ⟨"\x7b\"message\":\"bad\"\x7d", some 200, none⟩) Discorder initialState).1 =
      ("\x7b\"message\":\"bad\"\x7d",
        some (errors.New "incorrect discord URL, please confirm URL is correct")) ∧
    (discord.OnTest (stubEnv ⟨"\x7b\"message\":\"bad\"\x7d", some 200, none⟩) Discorder initialState).1.2
      ≠ none :=
  OnTest_decode_failure_or_zero_code _ _ _ (by decide) rfl (Or.inr (Or.inr (by decide)))

/-- C4: for a non-empty body received with no transport error that decodes with a non-zero
code, `OnTest` returns the body unchanged and no error, whatever the decoded message is. -/
theorem OnTest_nonzero_code (env : Collaborators) (d : discord) (st : State)
    (code : Int) (msg : String)
    (hbody : (env.transport st.requests (discord.OnTest_request st)).contents ≠ "")
    (herr : (env.transport st.requests (discord.OnTest_request st)).err = none)
    (hdec : env.Unmarshal (env.transport st.requests (discord.OnTest_request st)).contents
        discordTestJson.zero = (⟨code, msg⟩, none))
    (hcode : code ≠ 0) :
    (discord.OnTest env d st).1 =
      ((env.transport st.requests (discord.OnTest_request st)).contents, none) := by
  rw [OnTest_result, if_neg hbody, herr, hdec]
  simp only []
  rw [if_neg hcode]

/-- C4 at a concrete input: the body with code 1 and message ok. -/
theorem OnTest_nonzero_code_witness :
    (discord.OnTest (stubEnv ⟨"\x7b\"code\":1,\"message\":\"ok\"\x7d", some 200, none⟩)
        Discorder initialState).1 = ("\x7b\"code\":1,\"message\":\"ok\"\x7d", none) :=
  OnTest_nonzero_code _ _ _ 1 "ok" (by decide) rfl (by decide) (by decide)

/-- C8, as stated, fails: on the body `oops`, which does not decode, the error `OnTest` returns
reads "incorrect discord URL, please confirm URL is correct", not the text of the claim. -/
theorem OnTest_error_text_differs :
    (discord.OnTest (stubEnv ⟨"oops", some 404, none⟩) Discorder initialState).1 =
      ("oops", some (errors.New "incorrect discord URL, please confirm URL is correct")) ∧
    (discord.OnTest (stubEnv ⟨"oops", some 404, none⟩) Discorder initialState).1.2.map GoError.Error
      ≠ some "incorrect URL, please confirm URL is correct" := by
  have h : (discord.OnTest (stubEnv ⟨"oops", some 404, none⟩) Discorder initialState).1 =
      ("oops", some (errors.New "incorrect discord URL, please confirm URL is correct")) := by
    rw [OnTest_result]; rfl
  refine ⟨h, ?_⟩
  rw [h]
  decide

/-- C8, amended: the error `OnTest` returns on a decode failure or a zero code carries exactly
the message text "incorrect discord URL, please confirm URL is correct". -/
theorem OnTest_error_text (env : Collaborators) (d : discord) (st : State)
    (hbody : (env.transport st.requests (discord.OnTest_request st)).contents ≠ "")
    (herr : (env.transport st.requests (discord.OnTest_request st)).err = none)
    (hdec :
      (env.Unmarshal (env.transport st.requests (discord.OnTest_request st)).contents
          discordTestJson.zero).2 ≠ none ∨
      (env.Unmarshal (env.transport st.requests (discord.OnTest_request st)).contents
          discordTestJson.zero).1.Code = 0) :
    (discord.OnTest env d st).1.2.map GoError.Error =
      some "incorrect discord URL, please confirm URL is correct" := by
  rw [OnTest_result, if_neg hbody, herr]
  simp only []
  split
  · rfl
  · rename_i hnone
    rcases hdec with h | h
    · exact absurd hnone h
    · rw [if_pos h]
      rfl

/-- C8, amended, at a concrete input: a body that is not JSON. -/
theorem OnTest_error_text_witness :
    (discord.OnTest (stubEnv ⟨"oops", some 404, none⟩) Discorder initialState).1.2.map GoError.Error =
      some "incorrect discord URL, please confirm URL is correct" :=
  OnTest_error_text _ _ _ (by decide) rfl (Or.inl (by decide))

/-- C7, evaluated where it fails: `OnTest` called on an adapter configured with its own URL,
while the package-level `Discorder` holds another one, sends its single request to the URL of
`Discorder` and not to the URL of the adapter it was called on. -/
theorem OnTest_posts_to_package_level_host :
    (discord.OnTest (stubEnv ⟨"", some 204, none⟩) ownAdapter configuredState).2.requests =
      [⟨"https://discordapp.com/api/webhooks/1/global", "POST", "application/json", [],
        "\x7b\"content\": \"Testing the discord notifier\"\x7d", 10000000000, true, none⟩] ∧
    ownAdapter.Notification.Host.String = "https://discordapp.com/api/webhooks/2/own" ∧
    (∀ call ∈ (discord.OnTest (stubEnv ⟨"", some 204, none⟩) ownAdapter configuredState).2.requests,
      call.url ≠ ownAdapter.Notification.Host.String) := by
  have h : (discord.OnTest (stubEnv ⟨"", some 204, none⟩) ownAdapter configuredState).2.requests =
      [⟨"https://discordapp.com/api/webhooks/1/global", "POST", "application/json", [],
        "\x7b\"content\": \"Testing the discord notifier\"\x7d", 10000000000, true, none⟩] := by
    rw [OnTest_state]; rfl
  refine ⟨h, rfl, ?_⟩
  rw [h]
  intro call hcall
  rw [List.mem_singleton] at hcall
  rw [hcall]
  decide

/-! ## `OnFailure` and `OnSuccess` -/

/-- C5: `OnFailure` adds exactly one request to those sent, a POST to the Host of the adapter
with content type application/json, a time out of 10 seconds and the failure template rendered
by `ReplaceVars` as body; it returns the bytes and the error of the HTTP helper as they are. -/
theorem OnFailure_single_post (env : Collaborators) (d : discord) (s : Service) (f : Failure)
    (st : State) :
    (discord.OnFailure env d s f st).2.requests =
      st.requests ++ [⟨d.Notification.Host.String, "POST", "application/json", [],
        env.ReplaceVars d.Notification.FailureData.String s f, 10 * time.Second, true, none⟩] ∧
    (10 * time.Second : Duration) = 10 * 1000000000 ∧
    (discord.OnFailure env d s f st).1 =
      ((env.transport st.requests ⟨d.Notification.Host.String, "POST", "application/json", [],
          env.ReplaceVars d.Notification.FailureData.String s f, 10 * time.Second, true, none⟩).contents,
       (env.transport st.requests ⟨d.Notification.Host.String, "POST", "application/json", [],
          env.ReplaceVars d.Notification.FailureData.String s f, 10 * time.Second, true, none⟩).err) ∧
    (discord.OnFailure env d s f st).2.Discorder = st.Discorder :=
  ⟨rfl, rfl, rfl, rfl⟩

/-- C6: `OnSuccess` adds exactly one request to those sent, a POST to the Host of the adapter
with content type application/json, a time out of 10 seconds and the success template rendered
by `ReplaceVars` against the service and the zero failure as body; it returns the bytes and the
error of the HTTP helper as they are; and after any earlier `OnFailure` the request is still
that one, whatever failure was reported. -/
theorem OnSuccess_single_post (env : Collaborators) (d : discord) (s : Service) (st : State) :
    (discord.OnSuccess env d s st).2.requests =
      st.requests ++ [⟨d.Notification.Host.String, "POST", "application/json", [],
        env.ReplaceVars d.Notification.SuccessData.String s ⟨"", 0, 0⟩, 10 * time.Second, true, none⟩] ∧
    (10 * time.Second : Duration) = 10 * 1000000000 ∧
    (discord.OnSuccess env d s st).1 =
      ((env.transport st.requests ⟨d.Notification.Host.String, "POST", "application/json", [],
          env.ReplaceVars d.Notification.SuccessData.String s ⟨"", 0, 0⟩, 10 * time.Second, true,
          none⟩).contents,
       (env.transport st.requests ⟨d.Notification.Host.String, "POST", "application/json", [],
          env.ReplaceVars d.Notification.SuccessData.String s ⟨"", 0, 0⟩, 10 * time.Second, true,
          none⟩).err) ∧
    (discord.OnSuccess env d s st).2.Discorder = st.Discorder ∧
    (∀ (s0 : Service) (f0 : Failure),
      (discord.OnSuccess env d s (discord.OnFailure env d s0 f0 st).2).2.requests.getLast? =
        some ⟨d.Notification.Host.String, "POST", "application/json", [],
          env.ReplaceVars d.Notification.SuccessData.String s ⟨"", 0, 0⟩, 10 * time.Second, true,
          none⟩) := by
  refine ⟨rfl, rfl, rfl, rfl, ?_⟩
  intro s0 f0
  unfold discord.OnSuccess discord.sendRequest utils.HttpRequest
  simp
  rfl

/-! ## `Valid`, `OnSave`, `Select` -/

/-- C9: `Valid` returns no error for every adapter and every submitted values, of whatever
shape, and `OnSave` returns the empty string and no error for every adapter. -/
theorem Valid_OnSave_never_fail {Values : Type} (d : discord) (values : Values) :
    discord.Valid d values = none ∧ discord.OnSave d = ("", none) :=
  ⟨rfl, rfl⟩

/-- C10: the descriptor `Select` returns on the default adapter has a delay of 5 seconds,
Limits 60 and a form of exactly one field, of type text, titled "discord webhooker URL" and
stored under "host"; and `Select` returns the descriptor of any adapter as it is. -/
theorem Select_default_descriptor :
    (discord.Select Discorder).Delay = 5 * time.Second ∧
    (discord.Select Discorder).Delay = 5 * 1000000000 ∧
    (discord.Select Discorder).Limits = 60 ∧
    (∃ field : NotificationForm, (discord.Select Discorder).Form = [field] ∧
      field.Type' = "text" ∧ field.Title = "discord webhooker URL" ∧ field.DbField = "host") ∧
    (∀ d : discord, discord.Select d = d.Notification) :=
  ⟨rfl, rfl, rfl, ⟨_, rfl, rfl, rfl, rfl⟩, fun _ => rfl⟩

end notifiers
